import Mathlib

/-!
Verification of the smart-conserve pipeline (src/main.py).

The program is a linear pipeline over synthetic energy readings:

* `generate_mock_data` builds 24·7 readings, each `random.uniform 200 1000`;
* `analyze_energy_usage` reduces a reading list to a dict
  `{"average_usage", "max_usage", "min_usage"}`;
* `provide_recommendations` maps the average to a fixed tip list by
  threshold bands;
* `run_smart_conserve` sequences the stages and logs the results,
  catching every exception.

Python floats are modelled as rationals (`ℚ`); the float value NaN, on
which every comparison is false, is modelled separately by `EFloat`.
Python exceptions are modelled by `Except String`; each stage is an
exception-free wrapper around an `Except`-valued body, mirroring the
`try/except` blocks of the source.  `random.uniform a b` is modelled as
`a + (b - a) * r` over an abstract stream `rand : Nat → ℚ` of draws of
`random.random()`.  Log output is modelled as a list of `LogEntry`.
-/

inductive LogLevel
  | info
  | error
deriving DecidableEq

/-- The distinct messages the program can log, with their payloads. -/
inductive Msg
  | genError (e : String)
  | analyzeError (e : String)
  | recError (e : String)
  | insightsSummary (ins : List (String × ℚ))
  | recsHeader
  | recItem (s : String)
  | runError (e : String)
deriving DecidableEq

structure LogEntry where
  level : LogLevel
  msg : Msg
deriving DecidableEq

/-- `random.uniform a b` draws `a + (b-a) * random.random()`. -/
def uniform (a b r : ℚ) : ℚ := a + (b - a) * r

/-- Body of the `try` block of `generate_mock_data`: the comprehension
`[random.uniform(200, 1000) for _ in range(24 * 7)]`.  It contains no
fallible operation, so it always succeeds. -/
def generate_body (rand : Nat → ℚ) : Except String (List ℚ) :=
  Except.ok ((List.range (24 * 7)).map (fun i => uniform 200 1000 (rand i)))

/-- `generate_mock_data` with its log: the `except` clause logs an
error-level message and returns the empty list. -/
def generate_mock_data_logged (rand : Nat → ℚ) : List ℚ × List LogEntry :=
  match generate_body rand with
  | Except.ok d => (d, [])
  | Except.error e => ([], [LogEntry.mk LogLevel.error (Msg.genError e)])

def generate_mock_data (rand : Nat → ℚ) : List ℚ :=
  (generate_mock_data_logged rand).1

/-- `statistics.mean`, which raises `StatisticsError` on an empty list. -/
def pymean : List ℚ → Except String ℚ
  | [] => Except.error "mean requires at least one data point"
  | x :: xs => Except.ok ((x :: xs).sum / ((x :: xs).length : ℚ))

/-- Builtin `max` over a list, which raises `ValueError` on an empty list. -/
def pymax : List ℚ → Except String ℚ
  | [] => Except.error "max() arg is an empty sequence"
  | x :: xs => Except.ok (xs.foldl max x)

/-- Builtin `min` over a list, which raises `ValueError` on an empty list. -/
def pymin : List ℚ → Except String ℚ
  | [] => Except.error "min() arg is an empty sequence"
  | x :: xs => Except.ok (xs.foldl min x)

/-- Body of the `try` block of `analyze_energy_usage`: compute the three
statistics and build the insights dict (modelled as an association list,
in insertion order). -/
def analyze_body (data : List ℚ) : Except String (List (String × ℚ)) := do
  let average_usage ← pymean data
  let max_usage ← pymax data
  let min_usage ← pymin data
  pure [("average_usage", average_usage),
        ("max_usage", max_usage),
        ("min_usage", min_usage)]

/-- `analyze_energy_usage` with its log: the `except` clause logs an
error-level message and returns the empty dict. -/
def analyze_energy_usage_logged (data : List ℚ) :
    List (String × ℚ) × List LogEntry :=
  match analyze_body data with
  | Except.ok i => (i, [])
  | Except.error e => ([], [LogEntry.mk LogLevel.error (Msg.analyzeError e)])

def analyze_energy_usage (data : List ℚ) : List (String × ℚ) :=
  (analyze_energy_usage_logged data).1

/-- Body of the `try` block of `provide_recommendations`.  The only
fallible operations are the comparisons, which cannot raise on floats,
so the body always succeeds; at every comparison the accumulator is
still the initial `[]`, which is what an exception would return. -/
def provide_recommendations_b (average_usage : ℚ) :
    Except String (List String) :=
  Except.ok
    (if average_usage > 750 then
      ["Consider using energy-efficient appliances.",
       "Check insulation in your home to reduce heating/cooling costs."]
    else if 500 < average_usage ∧ average_usage ≤ 750 then
      ["Unplug devices when not in use.",
       "Use programmable thermostats to reduce energy consumption."]
    else
      ["You\x27re doing great! Continue monitoring for further improvements."])

/-- `provide_recommendations` with its log: the `except` clause logs an
error-level message and the function returns the (still empty)
accumulator. -/
def provide_recommendations_logged (average_usage : ℚ) :
    List String × List LogEntry :=
  match provide_recommendations_b average_usage with
  | Except.ok l => (l, [])
  | Except.error e => ([], [LogEntry.mk LogLevel.error (Msg.recError e)])

def provide_recommendations (average_usage : ℚ) : List String :=
  (provide_recommendations_logged average_usage).1

/-- A Python float: either NaN (every comparison false) or a numeric
value, modelled as a rational. -/
inductive EFloat
  | nan
  | val (q : ℚ)

/-- `x > y` on Python floats: false whenever either side is NaN. -/
def fgt : EFloat → EFloat → Bool
  | EFloat.val x, EFloat.val y => decide (y < x)
  | _, _ => false

/-- `x < y` on Python floats: false whenever either side is NaN. -/
def flt : EFloat → EFloat → Bool
  | EFloat.val x, EFloat.val y => decide (x < y)
  | _, _ => false

/-- `x <= y` on Python floats: false whenever either side is NaN. -/
def fle : EFloat → EFloat → Bool
  | EFloat.val x, EFloat.val y => decide (x ≤ y)
  | _, _ => false

/-- `provide_recommendations` over Python floats including NaN, with the
chained comparison `500 < average_usage <= 750` expanded as Python
evaluates it. -/
def provide_recommendationsF (average_usage : EFloat) : List String :=
  if fgt average_usage (EFloat.val 750) then
    ["Consider using energy-efficient appliances.",
     "Check insulation in your home to reduce heating/cooling costs."]
  else if flt (EFloat.val 500) average_usage &&
      fle average_usage (EFloat.val 750) then
    ["Unplug devices when not in use.",
     "Use programmable thermostats to reduce energy consumption."]
  else
    ["You\x27re doing great! Continue monitoring for further improvements."]

/-- Body of the `try` block of `run_smart_conserve`: the accumulated log
so far, paired with the pending exception, if one was raised. -/
def run_body (rand : Nat → ℚ) : List LogEntry × Option String :=
  let g := generate_mock_data_logged rand
  if g.1 = [] then
    (g.2, some "No energy data available.")
  else
    let a := analyze_energy_usage_logged g.1
    if a.1 = [] then
      (g.2 ++ a.2, some "Could not analyze energy data.")
    else
      match a.1.lookup "average_usage" with
      | none =>
          (g.2 ++ a.2 ++ [LogEntry.mk LogLevel.info (Msg.insightsSummary a.1)],
           some "KeyError: average_usage")
      | some avg =>
          let r := provide_recommendations_logged avg
          (g.2 ++ a.2 ++
            [LogEntry.mk LogLevel.info (Msg.insightsSummary a.1)] ++ r.2 ++
            [LogEntry.mk LogLevel.info Msg.recsHeader] ++
            r.1.map (fun s => LogEntry.mk LogLevel.info (Msg.recItem s)),
           none)

/-- The `except` clause of `run_smart_conserve`: a pending exception is
logged after whatever was already logged, and the run ends normally. -/
def runCatch : List LogEntry × Option String → List LogEntry
  | (logs, none) => logs
  | (logs, some e) => logs ++ [LogEntry.mk LogLevel.error (Msg.runError e)]

def run_smart_conserve (rand : Nat → ℚ) : List LogEntry :=
  runCatch (run_body rand)

/-! ### Helper lemmas about `List.foldl max` and `List.foldl min` -/

lemma le_foldl_max_of_le (xs : List ℚ) :
    ∀ x y : ℚ, y ≤ x → y ≤ xs.foldl max x := by
  induction xs with
  | nil => intro x y h; simpa using h
  | cons z zs ih =>
    intro x y h
    simp only [List.foldl_cons]
    exact ih (max x z) y (le_trans h (le_max_left x z))

lemma le_foldl_max (xs : List ℚ) :
    ∀ x y : ℚ, y ∈ x :: xs → y ≤ xs.foldl max x := by
  induction xs with
  | nil =>
    intro x y hy
    rw [List.mem_singleton] at hy
    simp [hy]
  | cons z zs ih =>
    intro x y hy
    simp only [List.foldl_cons]
    rcases List.mem_cons.mp hy with h1 | h1
    · exact le_foldl_max_of_le zs (max x z) y (h1 ▸ le_max_left x z)
    · rcases List.mem_cons.mp h1 with h2 | h2
      · exact le_foldl_max_of_le zs (max x z) y (h2 ▸ le_max_right x z)
      · exact ih (max x z) y (List.mem_cons_of_mem _ h2)

lemma foldl_max_mem (xs : List ℚ) :
    ∀ x : ℚ, xs.foldl max x ∈ x :: xs := by
  induction xs with
  | nil => intro x; simp
  | cons z zs ih =>
    intro x
    simp only [List.foldl_cons]
    rcases List.mem_cons.mp (ih (max x z)) with h1 | h1
    · rw [h1]
      rcases max_choice x z with hm | hm <;> rw [hm]
      · exact List.mem_cons_self x _
      · exact List.mem_cons_of_mem x (List.mem_cons_self z zs)
    · exact List.mem_cons_of_mem x (List.mem_cons_of_mem z h1)

lemma foldl_min_le_of_le (xs : List ℚ) :
    ∀ x y : ℚ, x ≤ y → xs.foldl min x ≤ y := by
  induction xs with
  | nil => intro x y h; simpa using h
  | cons z zs ih =>
    intro x y h
    simp only [List.foldl_cons]
    exact ih (min x z) y (le_trans (min_le_left x z) h)

lemma foldl_min_le (xs : List ℚ) :
    ∀ x y : ℚ, y ∈ x :: xs → xs.foldl min x ≤ y := by
  induction xs with
  | nil =>
    intro x y hy
    rw [List.mem_singleton] at hy
    simp [hy]
  | cons z zs ih =>
    intro x y hy
    simp only [List.foldl_cons]
    rcases List.mem_cons.mp hy with h1 | h1
    · exact foldl_min_le_of_le zs (min x z) y (h1 ▸ min_le_left x z)
    · rcases List.mem_cons.mp h1 with h2 | h2
      · exact foldl_min_le_of_le zs (min x z) y (h2 ▸ min_le_right x z)
      · exact ih (min x z) y (List.mem_cons_of_mem _ h2)

lemma foldl_min_mem (xs : List ℚ) :
    ∀ x : ℚ, xs.foldl min x ∈ x :: xs := by
  induction xs with
  | nil => intro x; simp
  | cons z zs ih =>
    intro x
    simp only [List.foldl_cons]
    rcases List.mem_cons.mp (ih (min x z)) with h1 | h1
    · rw [h1]
      rcases min_choice x z with hm | hm <;> rw [hm]
      · exact List.mem_cons_self x _
      · exact List.mem_cons_of_mem x (List.mem_cons_self z zs)
    · exact List.mem_cons_of_mem x (List.mem_cons_of_mem z h1)

/-! ### The mean lies between min and max -/

lemma mean_le_foldl_max (x : ℚ) (xs : List ℚ) :
    (x :: xs).sum / (((x :: xs).length : ℕ) : ℚ) ≤ xs.foldl max x := by
  have hub : ∀ y ∈ x :: xs, y ≤ xs.foldl max x := fun y hy => le_foldl_max xs x y hy
  have hsum := List.sum_le_card_nsmul (x :: xs) (xs.foldl max x) hub
  rw [nsmul_eq_mul] at hsum
  have hlen : (0 : ℚ) < (((x :: xs).length : ℕ) : ℚ) := by
    have : 0 < (x :: xs).length := List.length_pos_of_ne_nil (by simp)
    exact_mod_cast this
  rw [div_le_iff₀ hlen]
  linarith [hsum]

lemma foldl_min_le_mean (x : ℚ) (xs : List ℚ) :
    xs.foldl min x ≤ (x :: xs).sum / (((x :: xs).length : ℕ) : ℚ) := by
  have hlb : ∀ y ∈ x :: xs, xs.foldl min x ≤ y := fun y hy => foldl_min_le xs x y hy
  have hsum := List.card_nsmul_le_sum (x :: xs) (xs.foldl min x) hlb
  rw [nsmul_eq_mul] at hsum
  have hlen : (0 : ℚ) < (((x :: xs).length : ℕ) : ℚ) := by
    have : 0 < (x :: xs).length := List.length_pos_of_ne_nil (by simp)
    exact_mod_cast this
  rw [le_div_iff₀ hlen]
  linarith [hsum]

/-! ### Evaluation lemmas for the stages -/

lemma generate_mock_data_logged_eq (rand : Nat → ℚ) :
    generate_mock_data_logged rand =
      ((List.range (24 * 7)).map (fun i => uniform 200 1000 (rand i)), []) := rfl

lemma generate_mock_data_eq (rand : Nat → ℚ) :
    generate_mock_data rand =
      (List.range (24 * 7)).map (fun i => uniform 200 1000 (rand i)) := rfl

lemma generate_mock_data_length (rand : Nat → ℚ) :
    (generate_mock_data rand).length = 168 := by
  rw [generate_mock_data_eq, List.length_map, List.length_range]

lemma generate_mock_data_ne_nil (rand : Nat → ℚ) :
    generate_mock_data rand ≠ [] := by
  intro h
  have hl := generate_mock_data_length rand
  rw [h] at hl
  simp at hl

lemma analyze_body_cons (x : ℚ) (xs : List ℚ) :
    analyze_body (x :: xs) =
      Except.ok
        [("average_usage", (x :: xs).sum / (((x :: xs).length : ℕ) : ℚ)),
         ("max_usage", xs.foldl max x),
         ("min_usage", xs.foldl min x)] := rfl

lemma analyze_energy_usage_logged_cons (x : ℚ) (xs : List ℚ) :
    analyze_energy_usage_logged (x :: xs) =
      ([("average_usage", (x :: xs).sum / (((x :: xs).length : ℕ) : ℚ)),
        ("max_usage", xs.foldl max x),
        ("min_usage", xs.foldl min x)], []) := rfl

lemma analyze_energy_usage_cons (x : ℚ) (xs : List ℚ) :
    analyze_energy_usage (x :: xs) =
      [("average_usage", (x :: xs).sum / (((x :: xs).length : ℕ) : ℚ)),
       ("max_usage", xs.foldl max x),
       ("min_usage", xs.foldl min x)] := rfl

lemma provide_recommendations_logged_eq (a : ℚ) :
    provide_recommendations_logged a = (provide_recommendations a, []) := rfl

lemma provide_recommendations_eq (a : ℚ) :
    provide_recommendations a =
      (if a > 750 then
        ["Consider using energy-efficient appliances.",
         "Check insulation in your home to reduce heating/cooling costs."]
      else if 500 < a ∧ a ≤ 750 then
        ["Unplug devices when not in use.",
         "Use programmable thermostats to reduce energy consumption."]
      else
        ["You\x27re doing great! Continue monitoring for further improvements."]) := rfl

lemma provide_recommendations_ne_nil (a : ℚ) :
    provide_recommendations a ≠ [] := by
  rw [provide_recommendations_eq]
  split
  · simp
  · split <;> simp


lemma generate_mock_data_logged_pair (rand : Nat → ℚ) :
    generate_mock_data_logged rand = (generate_mock_data rand, []) := rfl

set_option maxRecDepth 4000 in
lemma run_body_spec (rand : Nat → ℚ) :
    ∃ ins recs, ins ≠ [] ∧ recs ≠ [] ∧
      run_body rand =
        (LogEntry.mk LogLevel.info (Msg.insightsSummary ins) ::
         LogEntry.mk LogLevel.info Msg.recsHeader ::
         recs.map (fun s => LogEntry.mk LogLevel.info (Msg.recItem s)), none) := by
  cases hd : generate_mock_data rand with
  | nil => exact absurd hd (generate_mock_data_ne_nil rand)
  | cons x xs =>
    have hg : generate_mock_data_logged rand = (x :: xs, []) := by
      rw [generate_mock_data_logged_pair, hd]
    refine ⟨analyze_energy_usage (x :: xs),
      provide_recommendations ((x :: xs).sum / (((x :: xs).length : ℕ) : ℚ)),
      ?_, provide_recommendations_ne_nil _, ?_⟩
    · rw [analyze_energy_usage_cons]; simp
    · unfold run_body
      rw [hg]
      rfl

/-! ### Claims -/

/-- Claim C1: for every input `average`, the Recommender returns exactly
the list fixed by the threshold partition: the two high-usage tips when
`average > 750`, the two moderate-usage tips when `500 < average ≤ 750`,
and the single doing-great tip when `average ≤ 500`, each in the stated
order. -/
theorem recommender_threshold_partition (a : ℚ) :
    (a > 750 →
      provide_recommendations a =
        ["Consider using energy-efficient appliances.",
         "Check insulation in your home to reduce heating/cooling costs."]) ∧
    (500 < a ∧ a ≤ 750 →
      provide_recommendations a =
        ["Unplug devices when not in use.",
         "Use programmable thermostats to reduce energy consumption."]) ∧
    (a ≤ 500 →
      provide_recommendations a =
        ["You\x27re doing great! Continue monitoring for further improvements."]) := by
  rw [provide_recommendations_eq]
  refine ⟨fun h => if_pos h, fun h => ?_, fun h => ?_⟩
  · rw [if_neg (not_lt.mpr h.2), if_pos h]
  · rw [if_neg (not_lt.mpr (le_trans h (by norm_num))),
      if_neg (fun hc => absurd h (not_le.mpr hc.1))]

/-- Witness for C1 at the spec's three sample inputs 760, 600 and 300. -/
theorem recommender_threshold_partition_witness :
    provide_recommendations 760 =
      ["Consider using energy-efficient appliances.",
       "Check insulation in your home to reduce heating/cooling costs."] ∧
    provide_recommendations 600 =
      ["Unplug devices when not in use.",
       "Use programmable thermostats to reduce energy consumption."] ∧
    provide_recommendations 300 =
      ["You\x27re doing great! Continue monitoring for further improvements."] :=
  ⟨(recommender_threshold_partition 760).1 (by norm_num),
   (recommender_threshold_partition 600).2.1 (by norm_num),
   (recommender_threshold_partition 300).2.2 (by norm_num)⟩

/-- Claim C2: on every non-empty input the Analyzer returns the record
whose `average_usage` is the arithmetic mean, whose `max_usage` is the
maximum (a member that bounds every member from above) and whose
`min_usage` is the minimum; consequently `min ≤ average ≤ max`. -/
theorem analyzer_mean_max_min (data : List ℚ) (h : data ≠ []) :
    ∃ a mx mn,
      analyze_energy_usage data =
        [("average_usage", a), ("max_usage", mx), ("min_usage", mn)] ∧
      a = data.sum / ((data.length : ℕ) : ℚ) ∧
      mx ∈ data ∧ (∀ y ∈ data, y ≤ mx) ∧
      mn ∈ data ∧ (∀ y ∈ data, mn ≤ y) ∧
      mn ≤ a ∧ a ≤ mx := by
  cases data with
  | nil => exact absurd rfl h
  | cons x xs =>
    exact ⟨(x :: xs).sum / (((x :: xs).length : ℕ) : ℚ),
      xs.foldl max x, xs.foldl min x,
      analyze_energy_usage_cons x xs, rfl,
      foldl_max_mem xs x, fun y hy => le_foldl_max xs x y hy,
      foldl_min_mem xs x, fun y hy => foldl_min_le xs x y hy,
      foldl_min_le_mean x xs, mean_le_foldl_max x xs⟩

/-- Witness for C2 on the concrete non-empty input `[1, 3]`. -/
theorem analyzer_mean_max_min_witness :
    ∃ a mx mn,
      analyze_energy_usage [1, 3] =
        [("average_usage", a), ("max_usage", mx), ("min_usage", mn)] ∧
      a = ([1, 3] : List ℚ).sum / ((([1, 3] : List ℚ).length : ℕ) : ℚ) ∧
      mx ∈ ([1, 3] : List ℚ) ∧ (∀ y ∈ ([1, 3] : List ℚ), y ≤ mx) ∧
      mn ∈ ([1, 3] : List ℚ) ∧ (∀ y ∈ ([1, 3] : List ℚ), mn ≤ y) ∧
      mn ≤ a ∧ a ≤ mx :=
  analyzer_mean_max_min [1, 3] (by decide)

/-- Claim C3: the Runner never lets an exception escape — every pending
exception is handed to the catch clause, which only appends an
error-level log entry and returns normally — and on the (always taken)
success path the run logs the Insights summary and a non-empty
recommendation list. -/
theorem run_smart_conserve_total_and_logs (rand : Nat → ℚ) :
    (∀ (logs : List LogEntry) (e : String),
      runCatch (logs, some e) =
        logs ++ [LogEntry.mk LogLevel.error (Msg.runError e)]) ∧
    ∃ ins recs, ins ≠ [] ∧ recs ≠ [] ∧
      run_smart_conserve rand =
        LogEntry.mk LogLevel.info (Msg.insightsSummary ins) ::
        LogEntry.mk LogLevel.info Msg.recsHeader ::
        recs.map (fun s => LogEntry.mk LogLevel.info (Msg.recItem s)) := by
  refine ⟨fun logs e => rfl, ?_⟩
  obtain ⟨ins, recs, h1, h2, h3⟩ := run_body_spec rand
  refine ⟨ins, recs, h1, h2, ?_⟩
  show runCatch (run_body rand) = _
  rw [h3]
  rfl

/-- Claim C4: every generated series has length exactly 168 and, as long
as the underlying `random.random()` draws lie in `[0, 1)`, every
generated value lies in `[200, 1000)`. -/
theorem generator_length_and_bounds (rand : Nat → ℚ)
    (h : ∀ i, 0 ≤ rand i ∧ rand i < 1) :
    (generate_mock_data rand).length = 168 ∧
    ∀ v ∈ generate_mock_data rand, 200 ≤ v ∧ v < 1000 := by
  refine ⟨generate_mock_data_length rand, ?_⟩
  intro v hv
  rw [generate_mock_data_eq] at hv
  obtain ⟨i, hi, rfl⟩ := List.mem_map.mp hv
  obtain ⟨h0, h1⟩ := h i
  unfold uniform
  constructor <;> linarith

/-- Witness for C4 with the constant draw stream `1/2`. -/
theorem generator_length_and_bounds_witness :
    (generate_mock_data (fun _ => (1 : ℚ)/2)).length = 168 ∧
    ∀ v ∈ generate_mock_data (fun _ => (1 : ℚ)/2), 200 ≤ v ∧ v < 1000 :=
  generator_length_and_bounds (fun _ => (1 : ℚ)/2) (fun _ => by norm_num)

/-- Claim C5: on the empty sequence the Analyzer does not raise: its body
fails internally (undefined mean), the failure is caught and logged at
error level, and the empty record is returned as the failure
sentinel. -/
theorem analyzer_empty_returns_empty_record :
    analyze_energy_usage [] = [] ∧
    ∃ e, analyze_body [] = Except.error e ∧
      analyze_energy_usage_logged [] =
        ([], [LogEntry.mk LogLevel.error (Msg.analyzeError e)]) :=
  ⟨rfl, "mean requires at least one data point", rfl, rfl⟩

/-- Claim C6: each stage (Generator, Analyzer, Recommender) either
returns its body's successful result with no error log, or — whenever
its body raises — catches the exception, logs one error-level message,
and returns its empty sentinel (empty list, empty record, empty
list). -/
theorem stages_catch_and_return_sentinels :
    (∀ rand : Nat → ℚ,
      (∃ d, generate_body rand = Except.ok d ∧
        generate_mock_data_logged rand = (d, [])) ∨
      (∃ e, generate_body rand = Except.error e ∧
        generate_mock_data_logged rand =
          ([], [LogEntry.mk LogLevel.error (Msg.genError e)]))) ∧
    (∀ data : List ℚ,
      (∃ i, analyze_body data = Except.ok i ∧
        analyze_energy_usage_logged data = (i, [])) ∨
      (∃ e, analyze_body data = Except.error e ∧
        analyze_energy_usage_logged data =
          ([], [LogEntry.mk LogLevel.error (Msg.analyzeError e)]))) ∧
    (∀ a : ℚ,
      (∃ l, provide_recommendations_b a = Except.ok l ∧
        provide_recommendations_logged a = (l, [])) ∨
      (∃ e, provide_recommendations_b a = Except.error e ∧
        provide_recommendations_logged a =
          ([], [LogEntry.mk LogLevel.error (Msg.recError e)]))) := by
  refine ⟨fun rand => Or.inl ⟨_, rfl, rfl⟩, fun data => ?_,
    fun a => Or.inl ⟨_, rfl, rfl⟩⟩
  cases hb : analyze_body data with
  | ok i =>
    exact Or.inl ⟨i, rfl, by unfold analyze_energy_usage_logged; rw [hb]⟩
  | error e =>
    exact Or.inr ⟨e, rfl, by unfold analyze_energy_usage_logged; rw [hb]⟩

/-- Claim C7: the Recommender is deterministic and pure — its output is
a function of nothing but which threshold band the input falls in, so
any two inputs that agree on both band tests produce identical,
order-stable lists. -/
theorem recommender_band_deterministic (a b : ℚ)
    (h1 : a > 750 ↔ b > 750)
    (h2 : 500 < a ∧ a ≤ 750 ↔ 500 < b ∧ b ≤ 750) :
    provide_recommendations a = provide_recommendations b := by
  rw [provide_recommendations_eq, provide_recommendations_eq]
  split_ifs with p1 p2 p3 p4 p5 <;> first | rfl | (exfalso; tauto)

/-- Witness for C7 at the pair 600, 700, both in the moderate band. -/
theorem recommender_band_deterministic_witness :
    provide_recommendations 600 = provide_recommendations 700 :=
  recommender_band_deterministic 600 700 (by norm_num) (by norm_num)

/-- Claim C8: for every Python float input, NaN included, the
Recommender's output is non-empty, has length 1 or 2, and consists only
of the five fixed recommendation strings. -/
theorem recommenderF_output_shape (a : EFloat) :
    provide_recommendationsF a ≠ [] ∧
    ((provide_recommendationsF a).length = 1 ∨
      (provide_recommendationsF a).length = 2) ∧
    ∀ s ∈ provide_recommendationsF a,
      s ∈ ["Consider using energy-efficient appliances.",
           "Check insulation in your home to reduce heating/cooling costs.",
           "Unplug devices when not in use.",
           "Use programmable thermostats to reduce energy consumption.",
           "You\x27re doing great! Continue monitoring for further improvements."] := by
  unfold provide_recommendationsF
  split
  · refine ⟨by simp, Or.inr (by simp), ?_⟩
    intro s hs
    simp only [List.mem_cons, List.not_mem_nil, or_false] at hs
    rcases hs with h | h <;> simp [h]
  · split
    · refine ⟨by simp, Or.inr (by simp), ?_⟩
      intro s hs
      simp only [List.mem_cons, List.not_mem_nil, or_false] at hs
      rcases hs with h | h <;> simp [h]
    · refine ⟨by simp, Or.inl (by simp), ?_⟩
      intro s hs
      simp only [List.mem_cons, List.not_mem_nil, or_false] at hs
      simp [hs]

/-- Claim C9: the Generator's failure branch is unreachable — its body
always succeeds — so the generated list is never empty and the Runner's
"No energy data available." error can never be raised. -/
theorem generator_failure_unreachable (rand : Nat → ℚ) :
    (∃ d, generate_body rand = Except.ok d) ∧
    generate_mock_data rand ≠ [] ∧
    (run_body rand).2 ≠ some "No energy data available." := by
  refine ⟨⟨_, rfl⟩, generate_mock_data_ne_nil rand, ?_⟩
  obtain ⟨ins, recs, h1, h2, h3⟩ := run_body_spec rand
  rw [h3]
  simp

/-- Claim C10: every non-empty Analyzer record has exactly the keys
`average_usage`, `max_usage`, `min_usage` in that order, its
`average_usage` lookup succeeds, and the Runner's
`insights["average_usage"]` access never raises a `KeyError`. -/
theorem analyzer_keys_and_runner_lookup (data : List ℚ)
    (h : analyze_energy_usage data ≠ []) :
    ((analyze_energy_usage data).map Prod.fst =
      ["average_usage", "max_usage", "min_usage"] ∧
     (analyze_energy_usage data).lookup "average_usage" ≠ none) ∧
    ∀ rand : Nat → ℚ, (run_body rand).2 ≠ some "KeyError: average_usage" := by
  constructor
  · cases data with
    | nil => exact absurd rfl h
    | cons x xs =>
      rw [analyze_energy_usage_cons]
      exact ⟨rfl, by simp [List.lookup]⟩
  · intro rand
    obtain ⟨ins, recs, h1, h2, h3⟩ := run_body_spec rand
    rw [h3]
    simp

/-- Witness for C10 on the concrete input `[2]`. -/
theorem analyzer_keys_and_runner_lookup_witness :
    ((analyze_energy_usage [2]).map Prod.fst =
      ["average_usage", "max_usage", "min_usage"] ∧
     (analyze_energy_usage [2]).lookup "average_usage" ≠ none) ∧
    ∀ rand : Nat → ℚ, (run_body rand).2 ≠ some "KeyError: average_usage" :=
  analyzer_keys_and_runner_lookup [2] (by decide)
